import Mathlib

/-!
# AtmoSphere (script.js): a shallow embedding and its verified properties

The embedding follows `src/script.js`.

* ECMAScript Numbers are modelled by `Num`: either `NaN` or an exact integer.  Every
  Number that `formatTime` computes from integer arguments is of that kind: the time
  value of a `Date` is an integer of magnitude at most `8.64e15 < 2^53`, so all
  arithmetic on valid time values is exact in IEEE doubles, and a product or sum whose
  exact value leaves that range is still outside of it after rounding (rounding is
  monotone and the bound is representable), so `TimeClip` maps it to `NaN` either way.
* A `Date` object is its time value (milliseconds since the epoch, or `NaN`).  The
  machine that runs the script is a `Host`, its local time zone adjustment; the local
  accessors of a `Date` read it and the UTC accessors do not.
* Strings are Lean strings; all keywords searched for are ASCII.
* The page is a record of the DOM fields the script reads and writes, together with a
  trace of the calls and requests the handlers start.
-/

namespace AtmoSphere

/-! ## ECMAScript Numbers -/

/-- An ECMAScript Number as far as this program can produce one: `NaN` or an integer. -/
inductive Num where
  | nan : Num
  | int (v : Int) : Num
deriving DecidableEq, Repr

namespace Num

/-- Multiplication `a * b`; `NaN` is absorbing. -/
def mul : Num → Num → Num
  | int a, int b => int (a * b)
  | _, _ => nan

/-- Addition `a + b`; `NaN` is absorbing. -/
def add : Num → Num → Num
  | int a, int b => int (a + b)
  | _, _ => nan

/-- Remainder `a % b`: the sign follows the dividend, `NaN` when the divisor is zero. -/
def rem : Num → Num → Num
  | int a, int b => if b = 0 then nan else int (Int.tmod a b)
  | _, _ => nan

/-- Comparison `a >= b`: false as soon as one side is `NaN`. -/
def ge : Num → Num → Bool
  | int a, int b => decide (b ≤ a)
  | _, _ => false

/-- Comparison `a < b`: false as soon as one side is `NaN`. -/
def lt : Num → Num → Bool
  | int a, int b => decide (a < b)
  | _, _ => false

/-- ToBoolean: `NaN` and `0` are falsy, every other number is truthy. -/
def truthy : Num → Bool
  | int v => decide (v ≠ 0)
  | nan => false

/-- The operator `a || b` on numbers. -/
def or (a b : Num) : Num := if a.truthy then a else b

/-- ToString of a number inside a template literal. -/
def toJSString : Num → String
  | int v => toString v
  | nan => "NaN"

end Num

/-! ## Date objects -/

/-- The largest magnitude of a time value, in milliseconds (`8.64e15`). -/
def maxTimeValue : Int := 8640000000000000

/-- TimeClip: a time whose magnitude exceeds `8.64e15` ms becomes `NaN`. -/
def timeClip : Num → Num
  | Num.int v => if v.natAbs ≤ maxTimeValue.toNat then Num.int v else Num.nan
  | Num.nan => Num.nan

/-- A `Date` object: its time value. -/
structure Date where
  timeValue : Num
deriving DecidableEq, Repr

namespace Date

/-- The constructor `new Date(value)` on a number. -/
def ofNumber (value : Num) : Date := ⟨timeClip value⟩

/-- The method `getTime()`. -/
def getTime (d : Date) : Num := d.timeValue

/-- The method `getUTCHours()`: `HourFromTime(t) = floor(t / msPerHour) modulo 24`. -/
def getUTCHours (d : Date) : Num :=
  match d.timeValue with
  | Num.int t => Num.int (Int.fmod (Int.fdiv t 3600000) 24)
  | Num.nan => Num.nan

/-- The method `getUTCMinutes()`: `MinFromTime(t) = floor(t / msPerMinute) modulo 60`. -/
def getUTCMinutes (d : Date) : Num :=
  match d.timeValue with
  | Num.int t => Num.int (Int.fmod (Int.fdiv t 60000) 60)
  | Num.nan => Num.nan

end Date

/-! ## formatTime -/

/-- The function `formatTime(unixTime, timezoneOffset)` of script.js on integer arguments. -/
def formatTime (unixTime timezoneOffset : Int) : String :=
  let utcTime := Date.ofNumber (Num.mul (Num.int unixTime) (Num.int 1000))
  let cityTime :=
    Date.ofNumber (Num.add utcTime.getTime (Num.mul (Num.int timezoneOffset) (Num.int 1000)))
  let hours := cityTime.getUTCHours
  let minutes := cityTime.getUTCMinutes
  let period := if Num.ge hours (Num.int 12) then "PM" else "AM"
  let formattedHours := Num.or (Num.rem hours (Num.int 12)) (Num.int 12)
  let formattedMinutes :=
    if Num.lt minutes (Num.int 10) then "0" ++ minutes.toJSString else minutes.toJSString
  formattedHours.toJSString ++ ":" ++ formattedMinutes ++ " " ++ period

/-! ## The executing machine -/

/-- The machine that runs the script, as far as a `Date` can observe it: its local time
zone adjustment in milliseconds at a given time value (LocalTZA). -/
structure Host where
  localTZA : Int → Int

/-- The accessors of a `Date`. -/
inductive DateMethod where
  | getTime : DateMethod
  | getHours : DateMethod
  | getMinutes : DateMethod
  | getUTCHours : DateMethod
  | getUTCMinutes : DateMethod
deriving DecidableEq, Repr

/-- A call of an accessor on a machine. `getHours` and `getMinutes` read the local time
`t + LocalTZA(t)`; `getTime`, `getUTCHours` and `getUTCMinutes` read the time value. -/
def Date.call (host : Host) (method : DateMethod) (d : Date) : Num :=
  match method with
  | DateMethod.getTime => d.getTime
  | DateMethod.getUTCHours => d.getUTCHours
  | DateMethod.getUTCMinutes => d.getUTCMinutes
  | DateMethod.getHours =>
    match d.timeValue with
    | Num.int t => Num.int (Int.fmod (Int.fdiv (t + host.localTZA t) 3600000) 24)
    | Num.nan => Num.nan
  | DateMethod.getMinutes =>
    match d.timeValue with
    | Num.int t => Num.int (Int.fmod (Int.fdiv (t + host.localTZA t) 60000) 60)
    | Num.nan => Num.nan

/-- The function `formatTime(unixTime, timezoneOffset)` of script.js run on a machine:
every accessor call goes through the machine. -/
def formatTimeOn (host : Host) (unixTime timezoneOffset : Int) : String :=
  let utcTime := Date.ofNumber (Num.mul (Num.int unixTime) (Num.int 1000))
  let cityTime :=
    Date.ofNumber
      (Num.add (Date.call host DateMethod.getTime utcTime)
        (Num.mul (Num.int timezoneOffset) (Num.int 1000)))
  let hours := Date.call host DateMethod.getUTCHours cityTime
  let minutes := Date.call host DateMethod.getUTCMinutes cityTime
  let period := if Num.ge hours (Num.int 12) then "PM" else "AM"
  let formattedHours := Num.or (Num.rem hours (Num.int 12)) (Num.int 12)
  let formattedMinutes :=
    if Num.lt minutes (Num.int 10) then "0" ++ minutes.toJSString else minutes.toJSString
  formattedHours.toJSString ++ ":" ++ formattedMinutes ++ " " ++ period

/-- A machine on UTC. -/
def hostUTC : Host := ⟨fun _ => 0⟩

/-- A machine five and a half hours ahead of UTC. -/
def hostIndia : Host := ⟨fun _ => 19800000⟩

/-! ## The formatter as the specification words it -/

/-- Decimal of `n`, left-padded with zeros to two digits. -/
def padTwo (n : Nat) : String :=
  let d := toString n
  String.mk (List.replicate (2 - d.length) '0') ++ d

/-- Hour of day of the shifted instant `s` (seconds): `floor(s / 3600) mod 24`. -/
def hourOfDay (s : Int) : Nat := (Int.fmod (Int.fdiv s 3600) 24).toNat

/-- Minute of hour of the shifted instant `s` (seconds): `floor(s / 60) mod 60`. -/
def minuteOfHour (s : Int) : Nat := (Int.fmod (Int.fdiv s 60) 60).toNat

/-- Rendering of an hour of day and a minute of hour, after steps 4 to 7 of the
specification. -/
def renderTime (hour minute : Nat) : String :=
  let period := if hour < 12 then "AM" else "PM"
  let displayHour := if hour % 12 = 0 then 12 else hour % 12
  let displayMinute := padTwo minute
  toString displayHour ++ ":" ++ displayMinute ++ " " ++ period

/-- The specification of the formatter: steps 1 to 7. -/
def formatSpec (timestamp offset : Int) : String :=
  let s := timestamp + offset
  renderTime (hourOfDay s) (minuteOfHour s)

/-! ## Auxiliary definitions for the formatter -/

/-- Step 4 of `formatTime`: the string built from the two extracted numbers. -/
def formatParts (hours minutes : Num) : String :=
  let period := if Num.ge hours (Num.int 12) then "PM" else "AM"
  let formattedHours := Num.or (Num.rem hours (Num.int 12)) (Num.int 12)
  let formattedMinutes :=
    if Num.lt minutes (Num.int 10) then "0" ++ minutes.toJSString else minutes.toJSString
  formattedHours.toJSString ++ ":" ++ formattedMinutes ++ " " ++ period

/-- The time value of `cityTime` in `formatTime`. -/
def cityTimeValue (unixTime timezoneOffset : Int) : Num :=
  timeClip (Num.add (timeClip (Num.int (unixTime * 1000))) (Num.int (timezoneOffset * 1000)))

/-- Both instants that `formatTime` builds, `t` and `t + o` seconds, are within the range
of `Date` (`8.64e12` seconds on either side of the epoch). -/
def InDateRange (t o : Int) : Prop :=
  -8640000000000 ≤ t ∧ t ≤ 8640000000000 ∧ -8640000000000 ≤ t + o ∧ t + o ≤ 8640000000000

instance (t o : Int) : Decidable (InDateRange t o) := by
  unfold InDateRange; infer_instance

/-- Cut a character list at the first occurrence of `c`: the text before it and the text
after it, or `none` when `c` does not occur. -/
def cutAt (c : Char) (cs : List Char) : Option (List Char × List Char) :=
  match cs.dropWhile (fun x => x != c) with
  | [] => none
  | _ :: rest => some (cs.takeWhile (fun x => x != c), rest)

/-- The unpadded decimals of the integers 1 to 12. -/
def isDisplayHour : List Char → Bool
  | [d] => decide ('1' ≤ d) && decide (d ≤ '9')
  | [a, b] => a == '1' && (b == '0' || b == '1' || b == '2')
  | _ => false

/-- Exactly two decimal digits that denote a value from 00 to 59. -/
def isDisplayMinute : List Char → Bool
  | [a, b] => decide ('0' ≤ a) && decide (a ≤ '5') && decide ('0' ≤ b) && decide (b ≤ '9')
  | _ => false

/-- Exactly `AM` or `PM`. -/
def isPeriod (cs : List Char) : Bool :=
  cs == ['A', 'M'] || cs == ['P', 'M']

/-- The shape `H:MM AM|PM` of a FormattedTime, checked on the characters of the string. -/
def isFormattedTime (s : String) : Bool :=
  match cutAt ':' s.toList with
  | none => false
  | some (hourPart, rest) =>
    match cutAt ' ' rest with
    | none => false
    | some (minutePart, suffix) =>
      isDisplayHour hourPart && isDisplayMinute minutePart && isPeriod suffix

/-! ## Strings -/

/-- The code points that `String.prototype.trim` strips: WhiteSpace (tab, vertical tab,
form feed, space, no-break space, the byte order mark and the space separators) and the
line terminators. -/
def isJSWhiteSpace (c : Char) : Bool :=
  let n := c.toNat
  n == 0x09 || n == 0x0A || n == 0x0B || n == 0x0C || n == 0x0D || n == 0x20 || n == 0xA0
    || n == 0x1680 || (decide (0x2000 ≤ n) && decide (n ≤ 0x200A)) || n == 0x2028
    || n == 0x2029 || n == 0x202F || n == 0x205F || n == 0x3000 || n == 0xFEFF

/-- The method `trim()` on characters: strip white space at both ends. -/
def trimChars (cs : List Char) : List Char :=
  ((cs.dropWhile isJSWhiteSpace).reverse.dropWhile isJSWhiteSpace).reverse

/-- The method `trim()`. -/
def trim (s : String) : String := String.mk (trimChars s.toList)

/-- The expression `s.split(',')[0]`: the text before the first comma, the whole string
when it holds no comma. -/
def splitCommaFirst (s : String) : String :=
  String.mk (s.toList.takeWhile (fun c => c != ','))

/-- Does `sub` occur in `cs` as a contiguous run of characters? -/
def includesChars (sub : List Char) : List Char → Bool
  | [] => sub.isPrefixOf []
  | c :: cs => sub.isPrefixOf (c :: cs) || includesChars sub cs

/-- The method `s.includes(sub)`. -/
def includes (s sub : String) : Bool := includesChars sub.toList s.toList

/-! ## The page -/

/-- What a handler starts: calls of the two fetching functions, and the requests they
issue. -/
inductive Effect where
  | getWeatherCall (city : String) : Effect
  | getLocationWeatherCall : Effect
  | fetch (url : String) : Effect
  | getCurrentPosition : Effect
deriving DecidableEq, Repr

/-- The state the script reads and writes. -/
structure Page where
  /-- The property `cityInput.value`. -/
  cityInputValue : String
  /-- The property `unitToggle.checked`. -/
  unitToggleChecked : Bool
  /-- The property `weatherDisplay.innerHTML`. -/
  weatherDisplayHTML : String
  /-- The property `document.body.style.background`. -/
  bodyBackground : String
  /-- The variable `isFahrenheit`. -/
  isFahrenheit : Bool
  /-- Is `navigator.geolocation` present? -/
  hasGeolocation : Bool
  /-- Calls and requests started so far, oldest first. -/
  trace : List Effect
deriving DecidableEq, Repr

/-- The constant `apiKey`. -/
def apiKey : String := "2edcd7b00ea2081f236aee32ad231ca6"

/-- The function `showMessage(message, type)`. -/
def showMessage (message type : String) (p : Page) : Page :=
  { p with weatherDisplayHTML := "<p class=\"message " ++ type ++ "\">" ++ message ++ "</p>" }

/-- The URL that `getWeather` requests. -/
def weatherUrl (city units : String) : String :=
  "https://api.openweathermap.org/data/2.5/weather?q=" ++ city ++ "&appid=" ++ apiKey
    ++ "&units=" ++ units

/-- The function `getWeather(city)` up to its first `await`: the units are read, the
loading message is shown and the request is started. What follows the `await` runs when
the response arrives. -/
def getWeather (city : String) (p : Page) : Page :=
  let p := { p with trace := p.trace ++ [Effect.getWeatherCall city] }
  let units := if p.isFahrenheit then "imperial" else "metric"
  let url := weatherUrl city units
  let p := showMessage "Loading weather data..." "loading" p
  { p with trace := p.trace ++ [Effect.fetch url] }

/-- The function `getLocationWeather()` up to the geolocation request; its callbacks
run when the browser answers. -/
def getLocationWeather (p : Page) : Page :=
  let p := { p with trace := p.trace ++ [Effect.getLocationWeatherCall] }
  if p.hasGeolocation then
    let p := showMessage "Finding your location..." "loading" p
    { p with trace := p.trace ++ [Effect.getCurrentPosition] }
  else
    showMessage "Geolocation is not supported by this browser." "error" p

/-- The click listener of `searchBtn`. -/
def searchBtnClick (p : Page) : Page :=
  let city := trim p.cityInputValue
  if city ≠ "" then
    let p := getWeather city p
    { p with cityInputValue := "" }
  else
    showMessage "Please enter a city name." "error" p

/-- The keypress listener of `cityInput`, on the event's `key`. -/
def cityInputKeypress (key : String) (p : Page) : Page :=
  if key = "Enter" then
    let city := trim p.cityInputValue
    if city ≠ "" then
      let p := getWeather city p
      { p with cityInputValue := "" }
    else
      showMessage "Please enter a city name." "error" p
  else
    p

/-- The change listener of `unitToggle`. `currentCity` is the text content of the element
that `document.querySelector('h2')` finds, `none` when it finds none. -/
def unitToggleChange (currentCity : Option String) (p : Page) : Page :=
  let p := { p with isFahrenheit := p.unitToggleChecked }
  match currentCity with
  | some textContent => getWeather (trim (splitCommaFirst textContent)) p
  | none => getLocationWeather p

/-- The function `changeBackground(condition)`. -/
def changeBackground (condition : String) (p : Page) : Page :=
  if includes condition "cloud" then
    { p with bodyBackground := "linear-gradient(135deg, #d3d3d3, #999)" }
  else if includes condition "rain" || includes condition "drizzle" then
    { p with bodyBackground := "linear-gradient(135deg, #87a8d0, #536976)" }
  else if includes condition "clear" then
    { p with bodyBackground := "linear-gradient(135deg, #f7d794, #f6e58d)" }
  else if includes condition "snow" then
    { p with bodyBackground := "linear-gradient(135deg, #e0f2f7, #c6e2ff)" }
  else if includes condition "thunderstorm" then
    { p with bodyBackground := "linear-gradient(135deg, #5c5c5c, #2b2d35)" }
  else if includes condition "mist" || includes condition "haze" || includes condition "fog" then
    { p with bodyBackground := "linear-gradient(135deg, #bdc3c7, #2c3e50)" }
  else
    { p with bodyBackground := "linear-gradient(135deg, #f0f4f8, #dfe6e9)" }

/-- Is the character one of the letters `A` to `Z`? -/
def isAsciiUpper (c : Char) : Bool := decide (65 ≤ c.toNat) && decide (c.toNat ≤ 90)

/-- Lower-casing of one ASCII character: `A` to `Z` become `a` to `z`. -/
def asciiLowerChar (c : Char) : Char :=
  if isAsciiUpper c then Char.ofNat (c.toNat + 32) else c

/-- Lower-casing of the letters `A` to `Z` of a string. -/
def asciiLower (s : String) : String := String.mk (s.toList.map asciiLowerChar)

/-- Does the string hold ASCII characters only? -/
def isAscii (s : String) : Bool := s.toList.all (fun c => decide (c.toNat < 128))

/-- The method `toLowerCase()`. On ASCII text it lower-cases the letters `A` to `Z` and
leaves every other character; on text with a character outside ASCII it follows the
Unicode case tables, which are the parameter `unicodeLower`. -/
def toLowerCase (unicodeLower : String → String) (s : String) : String :=
  if isAscii s then asciiLower s else unicodeLower s

/-- The last statement of `displayWeather(data)`: the background is chosen from the
lower-cased `data.weather[0].main`. -/
def displayWeatherBackground (unicodeLower : String → String) (main : String) (p : Page) :
    Page :=
  changeBackground (toLowerCase unicodeLower main) p

/-- Two characters are equal, or one is a letter `A` to `Z` and the other is its small
letter. -/
def sameUpToCase (a b : Char) : Bool :=
  a == b || (isAsciiUpper a && b.toNat == a.toNat + 32) ||
    (isAsciiUpper b && a.toNat == b.toNat + 32)

/-- Two character lists have the same length and agree, position by position, up to the
case of the letters. -/
def sameUpToCaseChars : List Char → List Char → Bool
  | [], [] => true
  | a :: l₁, b :: l₂ => sameUpToCase a b && sameUpToCaseChars l₁ l₂
  | _, _ => false

/-- Two strings differ only in the case of their letters. -/
def differOnlyInLetterCase (c₁ c₂ : String) : Bool := sameUpToCaseChars c₁.toList c₂.toList

/-- The keyword groups of the background choice in the order they are tried, each with
its gradient. -/
def backgroundRules : List (List String × String) :=
  [ (["cloud"], "linear-gradient(135deg, #d3d3d3, #999)"),
    (["rain", "drizzle"], "linear-gradient(135deg, #87a8d0, #536976)"),
    (["clear"], "linear-gradient(135deg, #f7d794, #f6e58d)"),
    (["snow"], "linear-gradient(135deg, #e0f2f7, #c6e2ff)"),
    (["thunderstorm"], "linear-gradient(135deg, #5c5c5c, #2b2d35)"),
    (["mist", "haze", "fog"], "linear-gradient(135deg, #bdc3c7, #2c3e50)") ]

/-- The gradient used when no keyword occurs. -/
def defaultGradient : String := "linear-gradient(135deg, #f0f4f8, #dfe6e9)"

/-- The seven gradients. -/
def gradients : List String := backgroundRules.map Prod.snd ++ [defaultGradient]

/-- The gradient of the first group one of whose keywords occurs in the condition, the
default gradient when there is none. -/
def firstMatch (condition : String) : String :=
  match backgroundRules.find? (fun r => r.1.any (fun k => includes condition k)) with
  | some r => r.2
  | none => defaultGradient

/-- An empty page in metric units. -/
def emptyPage : Page :=
  { cityInputValue := "", unitToggleChecked := false, weatherDisplayHTML := "",
    bodyBackground := "", isFahrenheit := false, hasGeolocation := true, trace := [] }

/-- The nine keywords that `changeBackground` searches for. -/
def keywords : List String :=
  ["cloud", "rain", "drizzle", "clear", "snow", "thunderstorm", "mist", "haze", "fog"]

/-- Neither the first nor the last character of the string is white space. -/
def noSurroundingWhiteSpace (s : String) : Bool :=
  s.toList.head?.all (fun c => !isJSWhiteSpace c) &&
    s.toList.getLast?.all (fun c => !isJSWhiteSpace c)

/-- The string `before` is the text of `s` before its first comma, all of `s` when it
holds no comma. -/
def IsTextBeforeFirstComma (s before : String) : Prop :=
  ',' ∉ before.toList ∧ (s = before ∨ ∃ rest : String, s = before ++ "," ++ rest)

/-- The string `t` is `s` without the white space at its two ends. -/
def IsTrimOf (s t : String) : Prop :=
  ∃ pre post : List Char,
    (∀ c ∈ pre, isJSWhiteSpace c = true) ∧ (∀ c ∈ post, isJSWhiteSpace c = true) ∧
      s.toList = pre ++ t.toList ++ post ∧ noSurroundingWhiteSpace t = true

/-! ## The formatter: lemmas -/

theorem formatTime_eq_parts (t o : Int) :
    formatTime t o =
      formatParts (Date.getUTCHours ⟨cityTimeValue t o⟩) (Date.getUTCMinutes ⟨cityTimeValue t o⟩) :=
  rfl

theorem cityTimeValue_of_inRange {t o : Int} (h : InDateRange t o) :
    cityTimeValue t o = Num.int ((t + o) * 1000) := by
  obtain ⟨h1, h2, h3, h4⟩ := h
  have c1 : (t * 1000).natAbs ≤ maxTimeValue.toNat := by
    unfold maxTimeValue; omega
  have c2 : (t * 1000 + o * 1000).natAbs ≤ maxTimeValue.toNat := by
    unfold maxTimeValue; omega
  simp [cityTimeValue, timeClip, Num.add, c1, c2, add_mul]

theorem cityTimeValue_of_not_inRange {t o : Int} (h : ¬ InDateRange t o) :
    cityTimeValue t o = Num.nan := by
  unfold InDateRange at h
  unfold cityTimeValue
  by_cases c1 : (t * 1000).natAbs ≤ maxTimeValue.toNat
  · have c2 : ¬ (t * 1000 + o * 1000).natAbs ≤ maxTimeValue.toNat := by
      unfold maxTimeValue at *; omega
    simp [timeClip, Num.add, c1, c2]
  · simp [timeClip, Num.add, c1]

theorem hourOfDay_cast (s : Int) : (hourOfDay s : Int) = s / 3600 % 24 := by
  unfold hourOfDay
  rw [Int.fdiv_eq_ediv _ (by norm_num), Int.fmod_eq_emod _ (by norm_num)]
  omega

theorem minuteOfHour_cast (s : Int) : (minuteOfHour s : Int) = s / 60 % 60 := by
  unfold minuteOfHour
  rw [Int.fdiv_eq_ediv _ (by norm_num), Int.fmod_eq_emod _ (by norm_num)]
  omega

theorem hourFromTime_ms (s : Int) :
    Int.fmod (Int.fdiv (s * 1000) 3600000) 24 = (hourOfDay s : Int) := by
  rw [hourOfDay_cast, Int.fdiv_eq_ediv _ (by norm_num), Int.fmod_eq_emod _ (by norm_num)]
  omega

theorem minFromTime_ms (s : Int) :
    Int.fmod (Int.fdiv (s * 1000) 60000) 60 = (minuteOfHour s : Int) := by
  rw [minuteOfHour_cast, Int.fdiv_eq_ediv _ (by norm_num), Int.fmod_eq_emod _ (by norm_num)]
  omega

theorem hourOfDay_lt (s : Int) : hourOfDay s < 24 := by
  have h := hourOfDay_cast s
  omega

theorem minuteOfHour_lt (s : Int) : minuteOfHour s < 60 := by
  have h := minuteOfHour_cast s
  omega

theorem formatParts_eq_renderTime_fin :
    ∀ (h : Fin 24) (m : Fin 60),
      formatParts (Num.int (h.val : Int)) (Num.int (m.val : Int)) = renderTime h.val m.val := by
  decide

theorem formatParts_eq_renderTime {h m : Nat} (hh : h < 24) (hm : m < 60) :
    formatParts (Num.int (h : Int)) (Num.int (m : Int)) = renderTime h m :=
  formatParts_eq_renderTime_fin ⟨h, hh⟩ ⟨m, hm⟩

set_option maxRecDepth 100000 in
theorem renderTime_shape_fin :
    ∀ (h : Fin 24) (m : Fin 60), isFormattedTime (renderTime h.val m.val) = true := by
  decide

theorem formatTime_of_inRange {t o : Int} (h : InDateRange t o) :
    formatTime t o = formatSpec t o := by
  rw [formatTime_eq_parts, cityTimeValue_of_inRange h]
  simp only [Date.getUTCHours, Date.getUTCMinutes, hourFromTime_ms, minFromTime_ms]
  exact formatParts_eq_renderTime (hourOfDay_lt _) (minuteOfHour_lt _)

theorem formatTime_of_not_inRange {t o : Int} (h : ¬ InDateRange t o) :
    formatTime t o = "12:NaN AM" := by
  rw [formatTime_eq_parts, cityTimeValue_of_not_inRange h]
  decide

theorem isFormattedTime_formatSpec (t o : Int) : isFormattedTime (formatSpec t o) = true :=
  renderTime_shape_fin ⟨hourOfDay (t + o), hourOfDay_lt _⟩ ⟨minuteOfHour (t + o), minuteOfHour_lt _⟩

theorem formatSpec_of_hour_minute {t o : Int} {h m : Nat}
    (hh : (t + o) / 3600 % 24 = h) (hm : (t + o) / 60 % 60 = m) :
    formatSpec t o = renderTime h m := by
  have e1 : hourOfDay (t + o) = h := by
    have := hourOfDay_cast (t + o)
    omega
  have e2 : minuteOfHour (t + o) = m := by
    have := minuteOfHour_cast (t + o)
    omega
  simp only [formatSpec, e1, e2]

/-! ## The formatter: claims -/

/-- C1 (as amended): for every timestamp `t` with `0 ≤ t ≤ 8640000000000` and every offset
`o` in `[-43200, 50400]` with `t + o ≤ 8640000000000`, `formatTime t o` is the string
`displayHour:displayMinute period` of the specification, computed from the shifted
instant `t + o` by floor division and non-negative remainder. -/
theorem formatTime_eq_formatSpec (t o : Int) (ht : 0 ≤ t) (hmax : t ≤ 8640000000000)
    (hlo : -43200 ≤ o) (hhi : o ≤ 50400) (hsum : t + o ≤ 8640000000000) :
    formatTime t o = formatSpec t o :=
  formatTime_of_inRange ⟨by omega, hmax, by omega, hsum⟩

theorem formatTime_eq_formatSpec_witness :
    formatTime 1700000000 19800 = formatSpec 1700000000 19800 :=
  formatTime_eq_formatSpec 1700000000 19800 (by decide) (by decide) (by decide) (by decide)
    (by decide)

/-- C1 (as stated) fails: the timestamp `8640000000001` is non-negative and the offset `0`
is in range, but the instant lies beyond the range of `Date`, so `formatTime` returns
`12:NaN AM` where the specification gives `12:00 AM`. -/
theorem formatTime_ne_formatSpec_beyond_range :
    (0 : Int) ≤ 8640000000001 ∧ (-43200 : Int) ≤ 0 ∧ (0 : Int) ≤ 50400 ∧
      formatTime 8640000000001 0 = "12:NaN AM" ∧ formatSpec 8640000000001 0 = "12:00 AM" ∧
      formatTime 8640000000001 0 ≠ formatSpec 8640000000001 0 := by
  decide

/-- C2 (as amended): for every timestamp `t` with `0 ≤ t ≤ 8640000000000` and every offset
`o` in `[-43200, 50400]` with `t + o ≤ 8640000000000`, the result of `formatTime` has the
shape `H:MM AM|PM`: an unpadded hour from 1 to 12, a colon, two digits from 00 to 59, a
space, and `AM` or `PM`. -/
theorem formatTime_shape (t o : Int) (ht : 0 ≤ t) (hmax : t ≤ 8640000000000)
    (hlo : -43200 ≤ o) (hhi : o ≤ 50400) (hsum : t + o ≤ 8640000000000) :
    isFormattedTime (formatTime t o) = true := by
  rw [formatTime_of_inRange ⟨by omega, hmax, by omega, hsum⟩]
  exact isFormattedTime_formatSpec t o

theorem formatTime_shape_witness : isFormattedTime (formatTime 1700000000 (-18000)) = true :=
  formatTime_shape 1700000000 (-18000) (by decide) (by decide) (by decide) (by decide)
    (by decide)

/-- C2 (as stated) fails: at the non-negative timestamp `8640000000002` with offset `0`
the minute field of the result is `NaN`, not two digits. -/
theorem formatTime_shape_fails_beyond_range :
    (0 : Int) ≤ 8640000000002 ∧ (-43200 : Int) ≤ 0 ∧ (0 : Int) ≤ 50400 ∧
      isFormattedTime (formatTime 8640000000002 0) = false := by
  decide

/-- C3 (as amended): for every timestamp `t` with `0 ≤ t ≤ 8640000000000` whose UTC hour
and minute are 0 (`t mod 86400` in `[0, 60)`), `formatTime t (-3600)` is `11:00 PM`; this
includes `t` in `[0, 60)`, where the shifted instant is negative. -/
theorem formatTime_negative_offset_wraps (t : Int) (ht : 0 ≤ t) (hmax : t ≤ 8640000000000)
    (hmod : t % 86400 < 60) : formatTime t (-3600) = "11:00 PM" := by
  rw [formatTime_of_inRange ⟨by omega, hmax, by omega, by omega⟩,
    formatSpec_of_hour_minute (h := 23) (m := 0) (by omega) (by omega)]
  decide

theorem formatTime_negative_offset_wraps_witness : formatTime 59 (-3600) = "11:00 PM" :=
  formatTime_negative_offset_wraps 59 (by decide) (by decide) (by decide)

/-- C3 (as stated) fails: the timestamp `8640000086400` is non-negative with UTC hour and
minute 0, yet it lies beyond the range of `Date` and the result is `12:NaN AM`. -/
theorem formatTime_negative_offset_fails_beyond_range :
    (0 : Int) ≤ 8640000086400 ∧ (8640000086400 : Int) % 86400 < 60 ∧
      formatTime 8640000086400 (-3600) = "12:NaN AM" ∧
      formatTime 8640000086400 (-3600) ≠ "11:00 PM" := by
  decide

/-- C4 (as amended): for every timestamp `t ≥ 0` with `t + 3600 ≤ 8640000000000` whose UTC
hour is 23 and UTC minute is 0 (`t mod 86400` in `[82800, 82860)`), `formatTime t 3600`
is `12:00 AM`. -/
theorem formatTime_positive_offset_wraps (t : Int) (ht : 0 ≤ t)
    (hmax : t + 3600 ≤ 8640000000000) (hlo : 82800 ≤ t % 86400) (hhi : t % 86400 < 82860) :
    formatTime t 3600 = "12:00 AM" := by
  rw [formatTime_of_inRange ⟨by omega, by omega, by omega, hmax⟩,
    formatSpec_of_hour_minute (h := 0) (m := 0) (by omega) (by omega)]
  decide

theorem formatTime_positive_offset_wraps_witness : formatTime 82800 3600 = "12:00 AM" :=
  formatTime_positive_offset_wraps 82800 (by decide) (by decide) (by decide) (by decide)

/-- C4 (as stated) fails: the timestamp `8639999996401` is non-negative with UTC hour 23
and minute 0 and is itself a valid date, but one hour later lies beyond the range of
`Date`, and the result is `12:NaN AM`. -/
theorem formatTime_positive_offset_fails_beyond_range :
    (0 : Int) ≤ 8639999996401 ∧ (82800 : Int) ≤ 8639999996401 % 86400 ∧
      (8639999996401 : Int) % 86400 < 82860 ∧
      formatTime 8639999996401 3600 = "12:NaN AM" ∧
      formatTime 8639999996401 3600 ≠ "12:00 AM" := by
  decide

/-- C5 (as amended): on every day `d` with `0 ≤ d < 100000000` and for every `sec` in
`[0, 60)`, with offset 0 midnight is `12:00 AM`, noon is `12:00 PM` and 13:05 is
`1:05 PM`. -/
theorem formatTime_reference_points (d sec : Int) (hd : 0 ≤ d) (hmax : d < 100000000)
    (hs : 0 ≤ sec) (hs60 : sec < 60) :
    formatTime (86400 * d + sec) 0 = "12:00 AM" ∧
      formatTime (86400 * d + 43200 + sec) 0 = "12:00 PM" ∧
      formatTime (86400 * d + 47100 + sec) 0 = "1:05 PM" := by
  refine ⟨?_, ?_, ?_⟩
  · rw [formatTime_of_inRange ⟨by omega, by omega, by omega, by omega⟩,
      formatSpec_of_hour_minute (h := 0) (m := 0) (by omega) (by omega)]
    decide
  · rw [formatTime_of_inRange ⟨by omega, by omega, by omega, by omega⟩,
      formatSpec_of_hour_minute (h := 12) (m := 0) (by omega) (by omega)]
    decide
  · rw [formatTime_of_inRange ⟨by omega, by omega, by omega, by omega⟩,
      formatSpec_of_hour_minute (h := 13) (m := 5) (by omega) (by omega)]
    decide

theorem formatTime_reference_points_witness :
    formatTime (86400 * 19000 + 30) 0 = "12:00 AM" ∧
      formatTime (86400 * 19000 + 43200 + 30) 0 = "12:00 PM" ∧
      formatTime (86400 * 19000 + 47100 + 30) 0 = "1:05 PM" :=
  formatTime_reference_points 19000 30 (by decide) (by decide) (by decide) (by decide)

/-- C5 (as stated) fails: on day `100000000`, one second after midnight, the instant lies
beyond the range of `Date` and the result is `12:NaN AM`. -/
theorem formatTime_reference_points_fail_beyond_range :
    (0 : Int) ≤ 100000000 ∧ (0 : Int) ≤ 1 ∧ (1 : Int) < 60 ∧
      formatTime (86400 * 100000000 + 1) 0 = "12:NaN AM" ∧
      formatTime (86400 * 100000000 + 1) 0 ≠ "12:00 AM" := by
  decide

theorem formatTimeOn_eq_formatTime (host : Host) (t o : Int) :
    formatTimeOn host t o = formatTime t o :=
  rfl

theorem getHours_depends_on_host :
    Date.call hostUTC DateMethod.getHours (Date.ofNumber (Num.int 0)) ≠
      Date.call hostIndia DateMethod.getHours (Date.ofNumber (Num.int 0)) := by
  decide

theorem formatSpec_ne_invalid (t o : Int) : formatSpec t o ≠ "12:NaN AM" := by
  intro h
  have h1 := isFormattedTime_formatSpec t o
  rw [h] at h1
  exact absurd h1 (by decide)

theorem formatSpec_eq_of_sum {t₁ o₁ t₂ o₂ : Int} (h : t₁ + o₁ = t₂ + o₂) :
    formatSpec t₁ o₁ = formatSpec t₂ o₂ := by
  simp only [formatSpec, h]

theorem formatTime_eq_ite (t o : Int) :
    formatTime t o = if InDateRange t o then formatSpec t o else "12:NaN AM" := by
  by_cases h : InDateRange t o
  · rw [if_pos h, formatTime_of_inRange h]
  · rw [if_neg h, formatTime_of_not_inRange h]

theorem inDateRange_iff {t o : Int} (hl : -8640000000000 ≤ t)
    (hls : -8640000000000 ≤ t + o) :
    InDateRange t o ↔ (t ≤ 8640000000000 ∧ t + o ≤ 8640000000000) := by
  unfold InDateRange
  constructor <;> intro h <;> omega

theorem formatTime_eq_iff_of_sum {t₁ o₁ t₂ o₂ : Int} (hl₁ : -8640000000000 ≤ t₁)
    (hl₂ : -8640000000000 ≤ t₂) (hls : -8640000000000 ≤ t₁ + o₁)
    (hsum : t₁ + o₁ = t₂ + o₂) :
    formatTime t₁ o₁ = formatTime t₂ o₂ ↔
      (8640000000000 < t₁ + o₁ ∨ (t₁ ≤ 8640000000000 ↔ t₂ ≤ 8640000000000)) := by
  have hne := formatSpec_ne_invalid t₂ o₂
  have r₁ := inDateRange_iff hl₁ hls
  have r₂ := inDateRange_iff hl₂ (hsum ▸ hls)
  rw [formatTime_eq_ite t₁ o₁, formatTime_eq_ite t₂ o₂, formatSpec_eq_of_sum hsum]
  by_cases a₁ : InDateRange t₁ o₁ <;> by_cases a₂ : InDateRange t₂ o₂
  · rw [if_pos a₁, if_pos a₂]
    have b₁ := r₁.mp a₁
    have b₂ := r₂.mp a₂
    exact ⟨fun _ => Or.inr ⟨fun _ => b₂.1, fun _ => b₁.1⟩, fun _ => rfl⟩
  · rw [if_pos a₁, if_neg a₂]
    have b₁ := r₁.mp a₁
    have b₂ : ¬ (t₂ ≤ 8640000000000 ∧ t₂ + o₂ ≤ 8640000000000) := fun h => a₂ (r₂.mpr h)
    constructor
    · intro h
      exact absurd h hne
    · intro h
      exfalso
      rcases h with h | h
      · omega
      · exact b₂ ⟨h.mp b₁.1, by omega⟩
  · rw [if_neg a₁, if_pos a₂]
    have b₂ := r₂.mp a₂
    have b₁ : ¬ (t₁ ≤ 8640000000000 ∧ t₁ + o₁ ≤ 8640000000000) := fun h => a₁ (r₁.mpr h)
    constructor
    · intro h
      exact absurd h.symm hne
    · intro h
      exfalso
      rcases h with h | h
      · omega
      · exact b₁ ⟨h.mpr b₂.1, by omega⟩
  · rw [if_neg a₁, if_neg a₂]
    have b₁ : ¬ (t₁ ≤ 8640000000000 ∧ t₁ + o₁ ≤ 8640000000000) := fun h => a₁ (r₁.mpr h)
    have b₂ : ¬ (t₂ ≤ 8640000000000 ∧ t₂ + o₂ ≤ 8640000000000) := fun h => a₂ (r₂.mpr h)
    refine ⟨fun _ => ?_, fun _ => rfl⟩
    by_cases hs : t₁ + o₁ ≤ 8640000000000
    · refine Or.inr ⟨fun h => absurd ⟨h, hs⟩ b₁, fun h => absurd ⟨h, by omega⟩ b₂⟩
    · exact Or.inl (by omega)

/-- C6 (as amended): for every timestamp `t ≥ 0` and offset `o` in `[-43200, 50400]`,
`formatTime t o = formatTime (t + o) 0` holds exactly when `t ≤ 8640000000000` or
`t + o > 8640000000000`; two such pairs with the same sum give the same string exactly
when the sum exceeds `8640000000000` or both timestamps lie on the same side of
`8640000000000`; and the result is the same on every two machines, whatever their time
zones. -/
theorem formatTime_depends_on_sum (host₁ host₂ : Host) (t₁ o₁ t₂ o₂ : Int)
    (ht₁ : 0 ≤ t₁) (hlo₁ : -43200 ≤ o₁) (_hhi₁ : o₁ ≤ 50400)
    (ht₂ : 0 ≤ t₂) (_hlo₂ : -43200 ≤ o₂) (_hhi₂ : o₂ ≤ 50400) :
    formatTimeOn host₁ t₁ o₁ = formatTimeOn host₂ t₁ o₁ ∧
      (formatTimeOn host₁ t₁ o₁ = formatTimeOn host₁ (t₁ + o₁) 0 ↔
        (t₁ ≤ 8640000000000 ∨ 8640000000000 < t₁ + o₁)) ∧
      (t₁ + o₁ = t₂ + o₂ →
        (formatTimeOn host₁ t₁ o₁ = formatTimeOn host₂ t₂ o₂ ↔
          (8640000000000 < t₁ + o₁ ∨ (t₁ ≤ 8640000000000 ↔ t₂ ≤ 8640000000000)))) := by
  simp only [formatTimeOn_eq_formatTime]
  refine ⟨trivial, ?_, fun hsum =>
    formatTime_eq_iff_of_sum (by omega) (by omega) (by omega) hsum⟩
  rw [formatTime_eq_iff_of_sum (by omega) (by omega) (by omega) (by omega)]
  constructor <;> intro h <;> omega

theorem formatTime_depends_on_sum_witness :
    formatTimeOn hostUTC 1700000000 3600 = formatTimeOn hostIndia 1700000000 3600 ∧
      formatTimeOn hostUTC 1700000000 3600 = formatTimeOn hostUTC (1700000000 + 3600) 0 ∧
      formatTimeOn hostUTC 1700000000 3600 = formatTimeOn hostIndia 1700007200 (-3600) :=
  ⟨(formatTime_depends_on_sum hostUTC hostIndia 1700000000 3600 1700007200 (-3600)
      (by decide) (by decide) (by decide) (by decide) (by decide) (by decide)).1,
    (formatTime_depends_on_sum hostUTC hostIndia 1700000000 3600 1700007200 (-3600)
      (by decide) (by decide) (by decide) (by decide) (by decide) (by decide)).2.1.mpr
      (by decide),
    ((formatTime_depends_on_sum hostUTC hostIndia 1700000000 3600 1700007200 (-3600)
      (by decide) (by decide) (by decide) (by decide) (by decide) (by decide)).2.2
      (by decide)).mpr (by decide)⟩

/-- C6 (as stated) fails: the timestamp `8640000000001` is non-negative and the offset
`-3600` is in range; `formatTime` rejects the timestamp before it adds the offset and
returns `12:NaN AM`, while the sum `8639999996401` with offset 0 gives `11:00 PM`. -/
theorem formatTime_shift_fails_beyond_range :
    (0 : Int) ≤ 8640000000001 ∧ (-43200 : Int) ≤ -3600 ∧ (-3600 : Int) ≤ 50400 ∧
      formatTime 8640000000001 (-3600) = "12:NaN AM" ∧
      formatTime (8640000000001 + -3600) 0 = "11:00 PM" ∧
      formatTime 8640000000001 (-3600) ≠ formatTime (8640000000001 + -3600) 0 := by
  decide

/-- C7 (as amended): `formatTime` returns a string for every pair of integers and raises
no error; the string has the shape `H:MM AM|PM` when `t` and `t + o` both lie within
`8640000000000` seconds of the epoch, and it is `12:NaN AM` otherwise. -/
theorem formatTime_total (t o : Int) :
    (InDateRange t o → isFormattedTime (formatTime t o) = true) ∧
      (¬ InDateRange t o →
        formatTime t o = "12:NaN AM" ∧ isFormattedTime (formatTime t o) = false) := by
  refine ⟨fun h => ?_, fun h => ?_⟩
  · rw [formatTime_of_inRange h]
    exact isFormattedTime_formatSpec t o
  · rw [formatTime_of_not_inRange h]
    exact ⟨rfl, by decide⟩

theorem formatTime_total_witness :
    isFormattedTime (formatTime (-86400) 50400) = true ∧
      formatTime 0 8640000000001 = "12:NaN AM" :=
  ⟨(formatTime_total (-86400) 50400).1 (by decide),
    ((formatTime_total 0 8640000000001).2 (by decide)).1⟩

/-- C7 (as stated) fails: at the integer timestamp `-8640000000001` with offset `0` the
result is `12:NaN AM`, whose minute field is not numeric. -/
theorem formatTime_not_always_formatted :
    formatTime (-8640000000001) 0 = "12:NaN AM" ∧
      isFormattedTime (formatTime (-8640000000001) 0) = false := by
  decide

/-! ## The page: lemmas -/

theorem dropWhile_eq_self_of_head (p : Char → Bool) (l : List Char)
    (h : l.head?.all (fun c => !p c) = true) : l.dropWhile p = l := by
  cases l with
  | nil => rfl
  | cons c cs =>
    have hc : p c = false := by simpa using h
    simp [List.dropWhile, hc]

theorem trimChars_eq_self (l : List Char)
    (hfirst : l.head?.all (fun c => !isJSWhiteSpace c) = true)
    (hlast : l.getLast?.all (fun c => !isJSWhiteSpace c) = true) : trimChars l = l := by
  unfold trimChars
  rw [dropWhile_eq_self_of_head _ l hfirst,
    dropWhile_eq_self_of_head _ l.reverse (by rw [List.head?_reverse]; exact hlast),
    List.reverse_reverse]

theorem takeWhile_append_stop (p : Char → Bool) (l r : List Char) (c : Char)
    (hl : ∀ x ∈ l, p x = true) (hc : p c = false) : (l ++ c :: r).takeWhile p = l := by
  induction l with
  | nil => simp [List.takeWhile, hc]
  | cons x xs ih =>
    have hx : p x = true := hl x (List.mem_cons_self x xs)
    have hxs := ih (fun y hy => hl y (List.mem_cons_of_mem x hy))
    simp [List.takeWhile_cons, hx, hxs]

theorem trim_splitCommaFirst_heading (name country : String)
    (hcomma : ',' ∉ name.toList) (hws : noSurroundingWhiteSpace name = true) :
    trim (splitCommaFirst (name ++ ", " ++ country)) = name := by
  have hsplit : splitCommaFirst (name ++ ", " ++ country) = name := by
    unfold splitCommaFirst
    have hdata : (name ++ ", " ++ country).toList = name.toList ++ ',' :: (' ' :: country.toList) := by
      simp [String.toList, String.data_append]
    rw [hdata, takeWhile_append_stop _ _ _ _ (fun x hx => by
      have : x ≠ ',' := fun e => hcomma (e ▸ hx)
      simpa using this) (by simp)]
    rfl
  rw [hsplit]
  unfold noSurroundingWhiteSpace at hws
  rw [Bool.and_eq_true] at hws
  unfold trim
  rw [trimChars_eq_self _ hws.1 hws.2]
  rfl

theorem changeBackground_eq_firstMatch (condition : String) (p : Page) :
    changeBackground condition p = { p with bodyBackground := firstMatch condition } := by
  unfold changeBackground firstMatch backgroundRules defaultGradient
  simp only [List.find?, List.any, Bool.or_false]
  generalize includes condition "cloud" = b₁
  generalize includes condition "rain" = b₂
  generalize includes condition "drizzle" = b₃
  generalize includes condition "clear" = b₄
  generalize includes condition "snow" = b₅
  generalize includes condition "thunderstorm" = b₆
  generalize includes condition "mist" = b₇
  generalize includes condition "haze" = b₈
  generalize includes condition "fog" = b₉
  cases b₁ <;> cases b₂ <;> cases b₃ <;> cases b₄ <;> cases b₅ <;> cases b₆ <;> cases b₇ <;>
    cases b₈ <;> cases b₉ <;> rfl

theorem firstMatch_mem_gradients (condition : String) : firstMatch condition ∈ gradients := by
  unfold firstMatch
  cases h : backgroundRules.find? (fun r => r.1.any (fun k => includes condition k)) with
  | none => simp [gradients]
  | some r =>
    have hr : r ∈ backgroundRules := List.mem_of_find?_eq_some h
    simp only [gradients, List.mem_append, List.mem_map]
    exact Or.inl ⟨r, hr, rfl⟩

theorem dropWhile_head_not (p : Char → Bool) (l : List Char) :
    (l.dropWhile p).head?.all (fun c => !p c) = true := by
  induction l with
  | nil => rfl
  | cons c cs ih =>
    by_cases hc : p c = true
    · simpa [List.dropWhile, hc] using ih
    · have hc' : p c = false := by simpa using hc
      simp [List.dropWhile, hc']

theorem dropWhile_comma_head (l : List Char) :
    l.dropWhile (fun c => c != ',') = [] ∨
      ∃ rest, l.dropWhile (fun c => c != ',') = ',' :: rest := by
  induction l with
  | nil => exact Or.inl rfl
  | cons c cs ih =>
    by_cases hc : c = ','
    · subst hc
      exact Or.inr ⟨cs, by simp [List.dropWhile]⟩
    · have hc' : (c != ',') = true := by simpa using hc
      simpa [List.dropWhile, hc'] using ih

theorem splitCommaFirst_spec (s : String) : IsTextBeforeFirstComma s (splitCommaFirst s) := by
  have hsplit := List.takeWhile_append_dropWhile (fun c => c != ',') s.toList
  refine ⟨?_, ?_⟩
  · intro hmem
    have := List.mem_takeWhile_imp hmem
    simp at this
  · rcases dropWhile_comma_head s.toList with h | ⟨rest, h⟩
    · left
      apply String.ext
      rw [h, List.append_nil] at hsplit
      exact hsplit.symm
    · right
      refine ⟨String.mk rest, ?_⟩
      apply String.ext
      rw [h] at hsplit
      simp only [String.data_append]
      show s.toList = s.toList.takeWhile (fun c => c != ',') ++ [','] ++ rest
      rw [List.append_assoc]
      exact hsplit.symm

theorem trimChars_spec (l : List Char) :
    ∃ pre post : List Char,
      (∀ c ∈ pre, isJSWhiteSpace c = true) ∧ (∀ c ∈ post, isJSWhiteSpace c = true) ∧
        l = pre ++ trimChars l ++ post ∧
        (trimChars l).head?.all (fun c => !isJSWhiteSpace c) = true ∧
        (trimChars l).getLast?.all (fun c => !isJSWhiteSpace c) = true := by
  have h1 := List.takeWhile_append_dropWhile isJSWhiteSpace l
  have h2 := List.takeWhile_append_dropWhile isJSWhiteSpace (l.dropWhile isJSWhiteSpace).reverse
  have h3 : l.dropWhile isJSWhiteSpace =
      trimChars l ++
        ((l.dropWhile isJSWhiteSpace).reverse.takeWhile isJSWhiteSpace).reverse := by
    have := congrArg List.reverse h2
    rw [List.reverse_append, List.reverse_reverse] at this
    exact this.symm
  refine ⟨l.takeWhile isJSWhiteSpace,
    ((l.dropWhile isJSWhiteSpace).reverse.takeWhile isJSWhiteSpace).reverse,
    fun c hc => List.mem_takeWhile_imp hc,
    fun c hc => List.mem_takeWhile_imp (List.mem_reverse.mp hc), ?_, ?_, ?_⟩
  · rw [List.append_assoc, ← h3, h1]
  · by_cases hnil : trimChars l = []
    · rw [hnil]
      rfl
    · have hd := dropWhile_head_not isJSWhiteSpace l
      rw [h3, List.head?_append_of_ne_nil _ hnil] at hd
      exact hd
  · unfold trimChars
    rw [List.getLast?_reverse]
    exact dropWhile_head_not isJSWhiteSpace _

theorem trim_spec (s : String) : IsTrimOf s (trim s) := by
  obtain ⟨pre, post, hpre, hpost, heq, hhead, hlast⟩ := trimChars_spec s.toList
  refine ⟨pre, post, hpre, hpost, heq, ?_⟩
  unfold noSurroundingWhiteSpace
  rw [Bool.and_eq_true]
  exact ⟨hhead, hlast⟩

theorem sameUpToCase_lower {a b : Char} (h : sameUpToCase a b = true)
    (ha : a.toNat < 128) : b.toNat < 128 ∧ asciiLowerChar a = asciiLowerChar b := by
  unfold sameUpToCase at h
  simp only [Bool.or_eq_true, Bool.and_eq_true, beq_iff_eq] at h
  rcases h with (h | ⟨hu, hb⟩) | ⟨hu, hb⟩
  · subst h
    exact ⟨ha, rfl⟩
  · have hu' := hu
    unfold isAsciiUpper at hu'
    simp only [Bool.and_eq_true, decide_eq_true_eq] at hu'
    have hnb : isAsciiUpper b = false := by
      unfold isAsciiUpper
      simp only [Bool.and_eq_false_iff, decide_eq_false_iff_not]
      omega
    refine ⟨by omega, ?_⟩
    unfold asciiLowerChar
    rw [hu, hnb, ← hb]
    simp [Char.ofNat_toNat]
  · have hu' := hu
    unfold isAsciiUpper at hu'
    simp only [Bool.and_eq_true, decide_eq_true_eq] at hu'
    have hna : isAsciiUpper a = false := by
      unfold isAsciiUpper
      simp only [Bool.and_eq_false_iff, decide_eq_false_iff_not]
      omega
    refine ⟨by omega, ?_⟩
    unfold asciiLowerChar
    rw [hu, hna, ← hb]
    simp [Char.ofNat_toNat]

theorem sameUpToCaseChars_lower (l₁ l₂ : List Char) (h : sameUpToCaseChars l₁ l₂ = true)
    (ha : ∀ c ∈ l₁, c.toNat < 128) :
    (∀ c ∈ l₂, c.toNat < 128) ∧ l₁.map asciiLowerChar = l₂.map asciiLowerChar := by
  induction l₁ generalizing l₂ with
  | nil =>
    cases l₂ with
    | nil => exact ⟨fun _ hc => absurd hc (List.not_mem_nil _), rfl⟩
    | cons b bs => simp [sameUpToCaseChars] at h
  | cons a as ih =>
    cases l₂ with
    | nil => simp [sameUpToCaseChars] at h
    | cons b bs =>
      simp only [sameUpToCaseChars, Bool.and_eq_true] at h
      obtain ⟨hb, hlow⟩ := sameUpToCase_lower h.1 (ha a (List.mem_cons_self a as))
      obtain ⟨hbs, hmap⟩ := ih bs h.2 (fun c hc => ha c (List.mem_cons_of_mem a hc))
      refine ⟨fun c hc => ?_, ?_⟩
      · rcases List.mem_cons.mp hc with rfl | hc
        · exact hb
        · exact hbs c hc
      · simp only [List.map_cons, hlow, hmap]

theorem toLowerCase_eq_of_differOnlyInLetterCase (unicodeLower : String → String)
    (c₁ c₂ : String) (hascii : isAscii c₁ = true)
    (h : differOnlyInLetterCase c₁ c₂ = true) :
    toLowerCase unicodeLower c₁ = toLowerCase unicodeLower c₂ := by
  have ha : ∀ c ∈ c₁.toList, c.toNat < 128 := by
    unfold isAscii at hascii
    simpa using hascii
  obtain ⟨hb, hmap⟩ := sameUpToCaseChars_lower c₁.toList c₂.toList h ha
  have hascii₂ : isAscii c₂ = true := by
    unfold isAscii
    simpa using hb
  unfold toLowerCase asciiLower
  rw [if_pos hascii, if_pos hascii₂, hmap]

theorem displayWeatherBackground_eq (unicodeLower : String → String) (main : String)
    (p : Page) :
    displayWeatherBackground unicodeLower main p =
      { p with bodyBackground := firstMatch (toLowerCase unicodeLower main) } :=
  changeBackground_eq_firstMatch _ p

/-! ## The page: claims -/

/-- C8: on a change of the unit toggle `isFahrenheit` becomes the toggle's checked value;
with a heading displayed, `getWeather` is called exactly once, with the heading's text
before its first comma, stripped of the white space at its two ends, and the request it
starts carries `units=imperial` when the toggle is checked and `units=metric` otherwise;
for a heading `name, country` whose name has no comma and no surrounding white space the
call is made with the name; with no heading, `getLocationWeather` is called once and
`getWeather` is not. -/
theorem unitToggleChange_refetches (p : Page) (textContent name country : String) :
    (unitToggleChange (some textContent) p).isFahrenheit = p.unitToggleChecked ∧
      (unitToggleChange none p).isFahrenheit = p.unitToggleChecked ∧
      (unitToggleChange (some textContent) p).trace =
        p.trace ++
          [Effect.getWeatherCall (trim (splitCommaFirst textContent)),
            Effect.fetch
              ("https://api.openweathermap.org/data/2.5/weather?q=" ++
                trim (splitCommaFirst textContent) ++ "&appid=" ++
                "2edcd7b00ea2081f236aee32ad231ca6" ++ "&units=" ++
                (if p.unitToggleChecked then "imperial" else "metric"))] ∧
      IsTextBeforeFirstComma textContent (splitCommaFirst textContent) ∧
      IsTrimOf (splitCommaFirst textContent) (trim (splitCommaFirst textContent)) ∧
      (',' ∉ name.toList → noSurroundingWhiteSpace name = true →
        (unitToggleChange (some (name ++ ", " ++ country)) p).trace =
          p.trace ++
            [Effect.getWeatherCall name,
              Effect.fetch
                ("https://api.openweathermap.org/data/2.5/weather?q=" ++ name ++ "&appid=" ++
                  "2edcd7b00ea2081f236aee32ad231ca6" ++ "&units=" ++
                  (if p.unitToggleChecked then "imperial" else "metric"))]) ∧
      (unitToggleChange none p).trace =
        p.trace ++ Effect.getLocationWeatherCall ::
          (if p.hasGeolocation then [Effect.getCurrentPosition] else []) := by
  have htrace : ∀ text : String,
      (unitToggleChange (some text) p).trace =
        p.trace ++
          [Effect.getWeatherCall (trim (splitCommaFirst text)),
            Effect.fetch
              ("https://api.openweathermap.org/data/2.5/weather?q=" ++
                trim (splitCommaFirst text) ++ "&appid=" ++
                "2edcd7b00ea2081f236aee32ad231ca6" ++ "&units=" ++
                (if p.unitToggleChecked then "imperial" else "metric"))] := by
    intro text
    simp [unitToggleChange, getWeather, showMessage, weatherUrl, apiKey]
  refine ⟨?_, ?_, htrace textContent, splitCommaFirst_spec textContent, trim_spec _,
    fun hcomma hws => ?_, ?_⟩
  · simp [unitToggleChange, getWeather, showMessage]
  · simp only [unitToggleChange, getLocationWeather, showMessage]
    split_ifs <;> rfl
  · rw [htrace, trim_splitCommaFirst_heading name country hcomma hws]
  · simp only [unitToggleChange, getLocationWeather, showMessage]
    split_ifs <;> simp

theorem unitToggleChange_refetches_witness :
    (unitToggleChange (some " Oslo , NO") { emptyPage with unitToggleChecked := true }).trace =
        [Effect.getWeatherCall "Oslo",
          Effect.fetch
            "https://api.openweathermap.org/data/2.5/weather?q=Oslo&appid=2edcd7b00ea2081f236aee32ad231ca6&units=imperial"] ∧
      (unitToggleChange (some ("New York" ++ ", " ++ "US")) emptyPage).trace =
        [Effect.getWeatherCall "New York",
          Effect.fetch
            "https://api.openweathermap.org/data/2.5/weather?q=New York&appid=2edcd7b00ea2081f236aee32ad231ca6&units=metric"] :=
  ⟨(unitToggleChange_refetches { emptyPage with unitToggleChecked := true } " Oslo , NO"
      "New York" "US").2.2.1.trans (by decide),
    ((unitToggleChange_refetches emptyPage " Oslo , NO" "New York" "US").2.2.2.2.2.1
      (by decide) (by decide)).trans (by decide)⟩

/-- C9: `changeBackground` sets the gradient of the first keyword group, in the order
cloud, rain or drizzle, clear, snow, thunderstorm, mist or haze or fog, that occurs in
the condition, and the default gradient when none occurs, leaving the rest of the page
alone; the value set is one of seven distinct gradients; a condition containing `cloud`
gets the cloud gradient; a condition containing none of the nine keywords gets the
default gradient; `displayWeather` sets the gradient chosen for the lower-cased
condition, so two ASCII conditions that differ only in the case of their letters, and
any two conditions with the same lower-casing, get the same background. -/
theorem changeBackground_first_keyword (unicodeLower : String → String)
    (condition c₁ c₂ : String) (p : Page) :
    changeBackground condition p = { p with bodyBackground := firstMatch condition } ∧
      firstMatch condition ∈ gradients ∧ gradients.Nodup ∧ gradients.length = 7 ∧
      (includes condition "cloud" = true →
        (changeBackground condition p).bodyBackground =
          "linear-gradient(135deg, #d3d3d3, #999)") ∧
      ((∀ k ∈ keywords, includes condition k = false) →
        (changeBackground condition p).bodyBackground =
          "linear-gradient(135deg, #f0f4f8, #dfe6e9)") ∧
      displayWeatherBackground unicodeLower condition p =
        { p with bodyBackground := firstMatch (toLowerCase unicodeLower condition) } ∧
      (isAscii c₁ = true → differOnlyInLetterCase c₁ c₂ = true →
        displayWeatherBackground unicodeLower c₁ p =
          displayWeatherBackground unicodeLower c₂ p) ∧
      (toLowerCase unicodeLower c₁ = toLowerCase unicodeLower c₂ →
        displayWeatherBackground unicodeLower c₁ p =
          displayWeatherBackground unicodeLower c₂ p) := by
  refine ⟨changeBackground_eq_firstMatch condition p, firstMatch_mem_gradients condition,
    by decide, rfl, fun h => ?_, fun h => ?_,
    displayWeatherBackground_eq unicodeLower condition p, fun hascii h => ?_, fun h => ?_⟩
  · simp [changeBackground, h]
  · have h1 := h "cloud" (by decide)
    have h2 := h "rain" (by decide)
    have h3 := h "drizzle" (by decide)
    have h4 := h "clear" (by decide)
    have h5 := h "snow" (by decide)
    have h6 := h "thunderstorm" (by decide)
    have h7 := h "mist" (by decide)
    have h8 := h "haze" (by decide)
    have h9 := h "fog" (by decide)
    simp [changeBackground, h1, h2, h3, h4, h5, h6, h7, h8, h9]
  · simp only [displayWeatherBackground,
      toLowerCase_eq_of_differOnlyInLetterCase unicodeLower c₁ c₂ hascii h]
  · simp only [displayWeatherBackground, h]

theorem changeBackground_first_keyword_witness :
    (changeBackground "rainy clouds" emptyPage).bodyBackground =
        "linear-gradient(135deg, #d3d3d3, #999)" ∧
      (changeBackground "tornado" emptyPage).bodyBackground =
        "linear-gradient(135deg, #f0f4f8, #dfe6e9)" ∧
      displayWeatherBackground (fun s => s) "Clouds" emptyPage =
        { emptyPage with bodyBackground := "linear-gradient(135deg, #d3d3d3, #999)" } ∧
      displayWeatherBackground (fun s => s) "Clouds" emptyPage =
        displayWeatherBackground (fun s => s) "cLOUDS" emptyPage ∧
      displayWeatherBackground (fun s => s) "Rain" emptyPage =
        displayWeatherBackground (fun s => s) "RAIN" emptyPage :=
  ⟨(changeBackground_first_keyword (fun s => s) "rainy clouds" "Clouds" "cLOUDS"
      emptyPage).2.2.2.2.1 (by decide),
    (changeBackground_first_keyword (fun s => s) "tornado" "Clouds" "cLOUDS"
      emptyPage).2.2.2.2.2.1 (by decide),
    (changeBackground_first_keyword (fun s => s) "Clouds" "Clouds" "cLOUDS"
      emptyPage).2.2.2.2.2.2.1.trans (by decide),
    (changeBackground_first_keyword (fun s => s) "Clouds" "Clouds" "cLOUDS"
      emptyPage).2.2.2.2.2.2.2.1 (by decide) (by decide),
    (changeBackground_first_keyword (fun s => s) "Clouds" "Rain" "RAIN"
      emptyPage).2.2.2.2.2.2.2.2 (by decide)⟩

/-- C10: the click on the search button and the Enter key do the same; when the trimmed
input value is empty no request is started, the input field keeps its value and the
message `Please enter a city name.` is shown as an error; otherwise `getWeather` is
called exactly once, with the trimmed value, and the input field is cleared; a keypress
of another key leaves the page as it is. -/
theorem city_search_validates (p : Page) (key : String) :
    cityInputKeypress "Enter" p = searchBtnClick p ∧
      (trim p.cityInputValue = "" →
        (searchBtnClick p).trace = p.trace ∧
          (searchBtnClick p).cityInputValue = p.cityInputValue ∧
          (searchBtnClick p).weatherDisplayHTML =
            "<p class=\"message error\">Please enter a city name.</p>") ∧
      (trim p.cityInputValue ≠ "" →
        (searchBtnClick p).trace =
            p.trace ++
              [Effect.getWeatherCall (trim p.cityInputValue),
                Effect.fetch (weatherUrl (trim p.cityInputValue)
                  (if p.isFahrenheit then "imperial" else "metric"))] ∧
          (searchBtnClick p).cityInputValue = "") ∧
      (key ≠ "Enter" → cityInputKeypress key p = p) := by
  refine ⟨?_, fun h => ?_, fun h => ?_, fun h => ?_⟩
  · simp [cityInputKeypress, searchBtnClick]
  · have hclick : searchBtnClick p = showMessage "Please enter a city name." "error" p := by
      simp [searchBtnClick, h]
    rw [hclick]
    exact ⟨rfl, rfl, rfl⟩
  · simp [searchBtnClick, h, getWeather, showMessage]
  · simp [cityInputKeypress, h]

theorem city_search_validates_witness :
    (searchBtnClick { emptyPage with cityInputValue := " \t " }).trace = [] ∧
      (searchBtnClick { emptyPage with cityInputValue := " Oslo " }).cityInputValue = "" ∧
      cityInputKeypress "a" { emptyPage with cityInputValue := " Oslo " } =
        { emptyPage with cityInputValue := " Oslo " } :=
  ⟨((city_search_validates { emptyPage with cityInputValue := " \t " } "a").2.1
      (by decide)).1,
    ((city_search_validates { emptyPage with cityInputValue := " Oslo " } "a").2.2.1
      (by decide)).2,
    (city_search_validates { emptyPage with cityInputValue := " Oslo " } "a").2.2.2
      (by decide)⟩

end AtmoSphere
